import Mathlib

/-!
Verification of the zkLogin wallet background service (Sui-treaming/frontend).

Shallow embedding of the background script (`src/popup/main.tsx`, which holds
the service-worker code), the shared storage helpers (`src/shared/storage.ts`)
and the base64 codec (`src/shared/encoding.ts`).  Network and platform calls
(HTTP fetch, chrome storage, the Sui RPC client) are modelled by passing their
observed results in as explicit arguments; every function body below is a
direct translation of the corresponding TypeScript body.
-/

namespace ZkWallet

/-- JsonValue models a JavaScript runtime value as produced by
`JSON.parse` (plus `bigint`, which the code's `typeof` checks distinguish).
Objects are insertion-ordered key/value lists, as in JS. -/
inductive JsonValue where
  | null
  | bool (b : Bool)
  | num (n : Int)
  | bigint (n : Int)
  | str (s : String)
  | arr (elems : List JsonValue)
  | obj (fields : List (String × JsonValue))

/-- JS truthiness (`!v` is `true` exactly when this is `false`).  `null`,
`false`, numeric zero and the empty string are falsy; objects and arrays are
always truthy. -/
def jsTruthy : JsonValue → Bool
  | .null => false
  | .bool b => b
  | .num n => n != 0
  | .bigint n => n != 0
  | .str s => s != ""
  | .arr _ => true
  | .obj _ => true

/-- Whether `typeof v === 'object'` holds in JS: objects, arrays and `null`. -/
def jsTypeofIsObject : JsonValue → Bool
  | .null => true
  | .arr _ => true
  | .obj _ => true
  | _ => false

/-- Property access `v[key]` for the (non-index) property names the code uses;
`none` models `undefined`.  Non-object values have none of these properties. -/
def getField : JsonValue → String → Option JsonValue
  | .obj fields, key => fields.lookup key
  | _, _ => none

/-- Keys of `Object.keys(v)`: field names of an object, decimal indices of an
array, empty otherwise. -/
def objectKeys : JsonValue → List String
  | .obj fields => fields.map Prod.fst
  | .arr elems => (List.range elems.length).map toString
  | _ => []

/-- Truthiness of `v[key]` (an absent property is `undefined`, hence falsy). -/
def truthyField (v : JsonValue) (key : String) : Bool :=
  match getField v key with
  | some w => jsTruthy w
  | none => false

/-- Runtime shape of the stored zkLogin proof (`StoredZkLoginProof` in
`shared/types.ts`): the three proof fields are kept as opaque JSON blobs and
`addressSeed` may be absent on a stored session (the type omits it), hence
`Option String`. -/
structure StoredZkLoginProof where
  proofPoints : JsonValue
  issBase64Details : JsonValue
  headerBase64 : JsonValue
  addressSeed : Option String

/-- The guard `src.proofPoints && src.issBase64Details && src.headerBase64`
from `fetchZkProof` (main.tsx line 826). -/
def hasProofShape (v : JsonValue) : Bool :=
  truthyField v "proofPoints" && truthyField v "issBase64Details" && truthyField v "headerBase64"

/-- The `nested` binding of `fetchZkProof` (main.tsx lines 822-824):
`typeof container.data === 'object' && container.data` — the value under
`data` when it is a truthy object-typed value, else `null`. -/
def nestedData (container : JsonValue) : Option JsonValue :=
  match getField container "data" with
  | some v => if jsTypeofIsObject v && jsTruthy v then some v else none
  | none => none

/-- The `src` selection of `fetchZkProof` (main.tsx lines 826-830): the top
level if it carries the three proof fields, else the truthy `data` child if it
does, else `null`. -/
def proofSource (container : JsonValue) : Option JsonValue :=
  if hasProofShape container then some container
  else
    match nestedData container with
    | some nested => if hasProofShape nested then some nested else none
    | none => none

/-- Normalization of a raw `addressSeed` value (main.tsx lines 837-843): kept
verbatim if a string, converted with `toString()` if a number or bigint,
otherwise left `undefined`. -/
def decodeAddressSeed : Option JsonValue → Option String
  | some (.str s) => some s
  | some (.num n) => some (toString n)
  | some (.bigint n) => some (toString n)
  | _ => none

/-- Extraction of the proof blob from the selected source object
(main.tsx lines 837-857).  The JS guard `if (!addressSeed)` also fires on the
empty string, which is falsy. -/
def extractProofFromSource (src : JsonValue) : Except String StoredZkLoginProof :=
  match decodeAddressSeed (getField src "addressSeed") with
  | some seed =>
    if seed = "" then
      .error ("Invalid proof response: missing addressSeed. Keys present: "
        ++ String.intercalate ", " (objectKeys src))
    else
      .ok { proofPoints := (getField src "proofPoints").getD .null
            issBase64Details := (getField src "issBase64Details").getD .null
            headerBase64 := (getField src "headerBase64").getD .null
            addressSeed := some seed }
  | none =>
    .error ("Invalid proof response: missing addressSeed. Keys present: "
      ++ String.intercalate ", " (objectKeys src))

/-- Body handling of `fetchZkProof` (main.tsx lines 814-857), applied to the
parsed JSON of a 2xx prover response (the HTTP transport is abstracted away;
non-2xx responses and invalid URLs error before this point). -/
def fetchZkProof (raw : JsonValue) : Except String StoredZkLoginProof :=
  if !(jsTruthy raw) || !(jsTypeofIsObject raw) then
    .error "Invalid proof response: expected object."
  else
    match proofSource raw with
    | none =>
      .error ("Invalid proof response: missing fields. Keys present: "
        ++ String.intercalate ", " (objectKeys raw))
    | some src => extractProofFromSource src

/-- BN254 scalar field modulus (main.tsx line 898). -/
def FIELD_MODULUS_BN254 : Nat :=
  21888242871839275222246405745257275088548364400416034343698204186575808495617

/-- Salt reduction `normalizeToField` (main.tsx lines 900-903).  The source
operates on a JS `bigint` obtained from the salt service's decimal string, so
its domain is the nonnegative integers, on which JS `%` agrees with `Nat.mod`. -/
def normalizeToField (x : Nat) : Nat :=
  let n := x % FIELD_MODULUS_BN254
  if n = 0 then 1 else n

/-- Account session record (`AccountSession` in `shared/types.ts`): the six
public fields followed by the five sensitive ones.  `provider` is the literal
string tag (always "twitch"); numeric JS fields are modelled as `Nat`. -/
structure AccountSession where
  address : String
  provider : String
  sub : String
  aud : String
  maxEpoch : Nat
  createdAt : Nat
  salt : String
  randomness : String
  jwt : String
  proof : StoredZkLoginProof
  ephemeralPrivateKey : String

/-- Public projection of a session (`AccountPublicData` in `shared/types.ts`):
exactly the six non-sensitive fields. -/
structure AccountPublicData where
  address : String
  provider : String
  sub : String
  aud : String
  maxEpoch : Nat
  createdAt : Nat

/-- Projection `sessionToPublicData` (main.tsx lines 723-726). -/
def sessionToPublicData (session : AccountSession) : AccountPublicData :=
  { address := session.address
    provider := session.provider
    sub := session.sub
    aud := session.aud
    createdAt := session.createdAt
    maxEpoch := session.maxEpoch }

/-- Projection `sessionsToPublicData` (storage.ts lines 127-136): the same
six-field destructuring mapped over the list. -/
def sessionsToPublicData (sessions : List AccountSession) : List AccountPublicData :=
  sessions.map fun session =>
    { address := session.address
      provider := session.provider
      sub := session.sub
      aud := session.aud
      createdAt := session.createdAt
      maxEpoch := session.maxEpoch }

/-- Store update performed by a successful login (main.tsx lines 397-399):
drop any session with the new session's address, then prepend the new one. -/
def loginStoreUpdate (sessions : List AccountSession) (session : AccountSession) :
    List AccountSession :=
  session :: sessions.filter fun existing => existing.address != session.address

/-- Store update performed by `logoutAccount` (main.tsx lines 419-422):
remove every session with the given address. -/
def logoutStoreUpdate (sessions : List AccountSession) (address : String) :
    List AccountSession :=
  sessions.filter fun session => session.address != address

/-- Session stores reachable from the empty store (the `chrome.storage.session`
region starts out empty and is only ever overwritten with the results of the
two updates above). -/
inductive ReachableStore : List AccountSession → Prop where
  | empty : ReachableStore []
  | login (sessions : List AccountSession) (session : AccountSession) :
      ReachableStore sessions → ReachableStore (loginStoreUpdate sessions session)
  | logout (sessions : List AccountSession) (address : String) :
      ReachableStore sessions → ReachableStore (logoutStoreUpdate sessions address)

/-- Session lookup `getSessionOrThrow` (main.tsx lines 714-721); the thrown
error is modelled on the `Except` error channel. -/
def getSessionOrThrow (sessions : List AccountSession) (address : String) :
    Except String AccountSession :=
  match sessions.find? (fun item => item.address == address) with
  | some session => .ok session
  | none => .error "No active session for this address. Ask the user to log in again."

/-- Success/failure envelope of a `SIGN_AND_EXECUTE` response
(`shared/messages.ts`): `ok`, the digest payload on success, the error string
on failure. -/
structure SignAndExecuteResponse where
  ok : Bool
  digest : Option String
  error : Option String

/-- Handler `signAndExecute` (main.tsx lines 432-451).  The body of
`executeTransactionWithSession` performs network I/O, abstracted here as the
`execute` argument returning its observed result; `formatError` on an `Error`
yields its message, here the error string itself.  The handler never writes
the session store, so the store is returned unchanged alongside the response. -/
def signAndExecute (sessions : List AccountSession) (address : String)
    (execute : AccountSession → Except String String) :
    SignAndExecuteResponse × List AccountSession :=
  match getSessionOrThrow sessions address with
  | .ok session =>
    match execute session with
    | .ok digest => ({ ok := true, digest := some digest, error := none }, sessions)
    | .error e => ({ ok := false, digest := none, error := some e }, sessions)
  | .error e => ({ ok := false, digest := none, error := some e }, sessions)

/-- Address seed attached before signing (main.tsx lines 550-555, likewise
lines 110-115): the stored proof's seed when present, otherwise
`genAddressSeed(BigInt(salt), 'sub', sub, aud).toString()`.  `genAddressSeed`
is a library primitive (a Poseidon hash), abstracted as the `gen` argument
taking the decimal salt string and the three claims. -/
def sessionAddressSeed (gen : String → String → String → String → Nat)
    (session : AccountSession) : String :=
  match session.proof.addressSeed with
  | some seed => seed
  | none => toString (gen session.salt "sub" session.sub session.aud)

/-- Gas buffer constant `GAS_BUFFER_MIST` (main.tsx line 33). -/
def GAS_BUFFER_MIST : Int := 50000000

/-- Network flag `IS_TESTNET` (main.tsx line 34): the build targets testnet. -/
def IS_TESTNET : Bool := true

/-- Faucet poll backoff `FAUCET_RETRY_DELAYS_MS` (main.tsx line 35). -/
def FAUCET_RETRY_DELAYS_MS : List Nat := [700, 1500, 2500, 4000, 6000]

/-- One native-currency coin as returned by `suiClient.getCoins`
(`CoinStruct`).  The RPC delivers `balance` as a string; `balance` here is the
result of `BigInt(coin.balance)`, with `none` for a string that fails to
parse (the code's catch branch). -/
structure CoinStruct where
  coinObjectId : String
  version : String
  digest : String
  balance : Option Int
  deriving Repr, DecidableEq

/-- Coin handle (`ObjectRef`) attached as gas payment. -/
structure ObjectRef where
  objectId : String
  digest : String
  version : String
  deriving Repr, DecidableEq

/-- Filter predicate of `collectSpendableCoins` (main.tsx lines 624-630):
`BigInt(coin.balance) > 0n`, false when the balance string does not parse. -/
def coinHasPositiveBalance (coin : CoinStruct) : Bool :=
  match coin.balance with
  | some v => v > 0
  | none => false

/-- Numeric balance used by the sort comparator (only ever applied to coins
that passed the positive-balance filter, whose balance parsed). -/
def coinBalanceValue (coin : CoinStruct) : Int := coin.balance.getD 0

/-- Insertion step of a stable descending-balance sort. -/
def insertCoinByBalanceDesc (coin : CoinStruct) : List CoinStruct → List CoinStruct
  | [] => [coin]
  | other :: rest =>
    if coinBalanceValue other ≤ coinBalanceValue coin then coin :: other :: rest
    else other :: insertCoinByBalanceDesc coin rest

/-- The `coins.sort` call (main.tsx lines 632-639): a stable sort under the
descending-balance comparator.  `Array.prototype.sort` is stable and the
comparator is a total preorder, so its output is this insertion sort's. -/
def sortCoinsByBalanceDesc : List CoinStruct → List CoinStruct
  | [] => []
  | coin :: rest => insertCoinByBalanceDesc coin (sortCoinsByBalanceDesc rest)

/-- Result of `collectSpendableCoins`. -/
structure SpendableCoinState where
  coins : List CoinStruct
  totalBalance : Int

/-- Inputs of one `collectSpendableCoins` call: the coin page from `getCoins`
and the `BigInt(balanceResult.totalBalance ?? '0')` parse (with `none` for an
unparsable string, triggering the fallback sum). -/
structure ChainSnapshot where
  coinsPage : List CoinStruct
  totalBalanceField : Option Int

/-- Coin enumeration `collectSpendableCoins` (main.tsx lines 618-649):
zero-balance (and unparsable) entries filtered out, remainder sorted by
descending balance; the aggregate balance comes from the `getBalance` RPC,
falling back to the sum over the kept coins when it fails to parse. -/
def collectSpendableCoins (snapshot : ChainSnapshot) : SpendableCoinState :=
  let coins := sortCoinsByBalanceDesc (snapshot.coinsPage.filter coinHasPositiveBalance)
  let totalBalance :=
    match snapshot.totalBalanceField with
    | some v => v
    | none => coins.foldl (fun acc coin => acc + coinBalanceValue coin) 0
  { coins := coins, totalBalance := totalBalance }

/-- Handle conversion `coinsToObjectRefs` (main.tsx lines 669-675):
`coins.slice(0, 32)` mapped to object references. -/
def coinsToObjectRefs (coins : List CoinStruct) : List ObjectRef :=
  (coins.take 32).map fun coin =>
    { objectId := coin.coinObjectId, digest := coin.digest, version := coin.version }

/-- Poll loop of `requestFaucetAndWait` (main.tsx lines 660-667): for each
delay in order, sleep, re-collect, and stop as soon as a spendable coin is
seen.  `pollSnapshots i` is the chain data observed by the poll after the
`i`-th delay; the returned list is the trace of delays actually slept. -/
def pollLoop (pollSnapshots : Nat → ChainSnapshot) : Nat → List Nat → List Nat
  | _, [] => []
  | i, delayMs :: remaining =>
    if (collectSpendableCoins (pollSnapshots i)).coins.isEmpty then
      delayMs :: pollLoop pollSnapshots (i + 1) remaining
    else [delayMs]

/-- Faucet top-up `requestFaucetAndWait` (main.tsx lines 651-667): a failed
faucet request (`requestSuiFromFaucetV2` throwing) is rethrown as the fixed
message with no polling; otherwise the bounded poll loop runs and the function
returns normally (its value is the trace of delays slept). -/
def requestFaucetAndWait (faucetRequestOk : Bool)
    (pollSnapshots : Nat → ChainSnapshot) : Except String (List Nat) :=
  if faucetRequestOk then
    .ok (pollLoop pollSnapshots 0 FAUCET_RETRY_DELAYS_MS)
  else
    .error "테스트넷 faucet 요청이 실패했습니다. 잠시 후 다시 시도하거나 수동으로 가스를 충전하세요."

/-- Transaction request payload (`SerializedTransactionRequest` in
`shared/messages.ts`): the `kind` tag with its optional fields.  A JS `amount`
that is not a number is `none`; the numeric value is modelled as a rational
(`Math.floor(amount * 1e9)` below is the exact rational floor). -/
inductive SerializedTransactionRequest where
  | transferSui (amount : Option ℚ) (recipient : Option String)
  | custom (bytes : Option String)

/-- Display-unit to mist conversion `toMist` (main.tsx lines 677-679). -/
def toMist (amount : ℚ) : Int := ⌊amount * 1000000000⌋

/-- The `transferAmountMist` binding (main.tsx lines 583-585): the converted
amount for a transfer payload carrying a numeric amount, otherwise `0n`. -/
def transferAmountMist : SerializedTransactionRequest → Int
  | .transferSui (some amount) _ => toMist amount
  | _ => 0

/-- The `minimumRequired` binding (main.tsx line 587):
`(transferAmountMist > 0n ? transferAmountMist : 0n) + GAS_BUFFER_MIST`. -/
def minimumRequiredMist (payload : SerializedTransactionRequest) : Int :=
  (if 0 < transferAmountMist payload then transferAmountMist payload else 0) + GAS_BUFFER_MIST

/-- Observable outcome of one `ensureSuiForTransaction` call: the returned
gas refs or thrown message, how many faucet requests were issued, and the
trace of poll delays slept. -/
structure ProvisionOutcome where
  result : Except String (List ObjectRef)
  faucetCalls : Nat
  pollDelays : List Nat

/-- Gas provisioner `ensureSuiForTransaction` (main.tsx lines 582-616).  The
three chain reads (initial collect, the polls inside `requestFaucetAndWait`,
and the post-faucet collect) receive their observed RPC data as arguments. -/
def ensureSuiForTransaction (payload : SerializedTransactionRequest)
    (initialSnapshot : ChainSnapshot) (faucetRequestOk : Bool)
    (pollSnapshots : Nat → ChainSnapshot) (finalSnapshot : ChainSnapshot) :
    ProvisionOutcome :=
  let tam := transferAmountMist payload
  let minimumRequired := minimumRequiredMist payload
  let state := collectSpendableCoins initialSnapshot
  if minimumRequired ≤ state.totalBalance ∧ state.coins ≠ [] then
    { result := .ok (coinsToObjectRefs state.coins), faucetCalls := 0, pollDelays := [] }
  else if IS_TESTNET = false then
    { result := .error (if 0 < tam ∧ state.totalBalance < tam then
        "보내려는 SUI 양이 계정 잔액보다 많습니다."
      else
        "SUI 잔액이 부족하여 거래 수수료를 낼 수 없습니다.")
      faucetCalls := 0, pollDelays := [] }
  else
    match requestFaucetAndWait faucetRequestOk pollSnapshots with
    | .error msg => { result := .error msg, faucetCalls := 1, pollDelays := [] }
    | .ok delays =>
      let state2 := collectSpendableCoins finalSnapshot
      if minimumRequired ≤ state2.totalBalance ∧ state2.coins ≠ [] then
        { result := .ok (coinsToObjectRefs state2.coins), faucetCalls := 1, pollDelays := delays }
      else
        { result := .error (if 0 < tam ∧ state2.totalBalance < tam then
            "보내려는 SUI 양이 아직 부족합니다. 지갑에 SUI를 더 충전한 뒤 다시 시도하세요."
          else
            "테스트넷 faucet에서 아직 SUI가 도착하지 않았습니다. 잠시 기다린 뒤 다시 시도해주세요.")
          faucetCalls := 1, pollDelays := delays }

/-- Built transaction shape produced by `buildTransaction`: for a transfer,
the single-sender split-and-transfer program (sender, split amount in mist,
recipient); for a custom payload, the deserialized bytes. -/
inductive BuiltTransaction where
  | transfer (sender : String) (amountMist : Int) (recipient : String)
  | fromBytes (bytes : String)

/-- Transaction builder `buildTransaction` (main.tsx lines 687-712).  The
guard `typeof payload.amount !== 'number' || !payload.recipient` also fires on
an empty-string recipient, which is falsy; `!payload.bytes` likewise. -/
def buildTransaction (sender : String) :
    SerializedTransactionRequest → Except String BuiltTransaction
  | .transferSui amount recipient =>
    match amount, recipient with
    | some amountValue, some recipientValue =>
      if recipientValue = "" then
        .error "Transfer SUI requires a recipient and numeric amount."
      else
        let amountMist := toMist amountValue
        if amountMist ≤ 0 then
          .error "Transfer amount must be greater than zero."
        else
          .ok (.transfer sender amountMist recipientValue)
    | _, _ => .error "Transfer SUI requires a recipient and numeric amount."
  | .custom bytes =>
    match bytes with
    | some b =>
      if b = "" then .error "Custom transaction requires bytes."
      else .ok (.fromBytes b)
    | none => .error "Custom transaction requires bytes."

/-- The base64 alphabet used by `btoa`/`atob` (RFC 4648). -/
def BASE64_ALPHABET : List Char :=
  "ABCDEFGHIJKLMNOPQRSTUVWXYZabcdefghijklmnopqrstuvwxyz0123456789+/".toList

/-- Character for a six-bit group. -/
def sextetToChar (n : Nat) : Char := BASE64_ALPHABET.getD n 'A'

/-- Six-bit group for a base64 character (64 for a character outside the
alphabet, on which `atob` would throw; never reached on encoder output). -/
def charToSextet (c : Char) : Nat := BASE64_ALPHABET.indexOf c

/-- Base64 encoding of a byte sequence, three bytes to four characters with
`=` padding — the behaviour of `btoa` on a binary string. -/
def encodeBase64 : List Nat → List Char
  | [] => []
  | [b0] =>
    [sextetToChar (b0 / 4), sextetToChar (b0 % 4 * 16), '=', '=']
  | [b0, b1] =>
    [sextetToChar (b0 / 4), sextetToChar (b0 % 4 * 16 + b1 / 16),
     sextetToChar (b1 % 16 * 4), '=']
  | b0 :: b1 :: b2 :: rest =>
    sextetToChar (b0 / 4) :: sextetToChar (b0 % 4 * 16 + b1 / 16)
      :: sextetToChar (b1 % 16 * 4 + b2 / 64) :: sextetToChar (b2 % 64)
      :: encodeBase64 rest

/-- Base64 decoding of a character sequence, four characters to up to three
bytes honouring `=` padding — the behaviour of `atob`. -/
def decodeBase64 : List Char → List Nat
  | c0 :: c1 :: c2 :: c3 :: rest =>
    let s0 := charToSextet c0
    let s1 := charToSextet c1
    if c2 = '=' then [s0 * 4 + s1 / 16]
    else
      let s2 := charToSextet c2
      if c3 = '=' then [s0 * 4 + s1 / 16, s1 % 16 * 16 + s2 / 4]
      else
        let s3 := charToSextet c3
        (s0 * 4 + s1 / 16) :: (s1 % 16 * 16 + s2 / 4) :: (s2 % 4 * 64 + s3) :: decodeBase64 rest
  | _ => []

/-- Encoder `uint8ToBase64` (encoding.ts lines 1-7): the byte array is turned
into a binary string code point by code point and fed to `btoa`; bytes are
modelled as `Nat` below 256, the output as its character list. -/
def uint8ToBase64 (bytes : List Nat) : List Char := encodeBase64 bytes

/-- Decoder `base64ToUint8` (encoding.ts lines 9-17): `atob`, then
`charCodeAt` on every position of the binary string. -/
def base64ToUint8 (text : List Char) : List Nat := decodeBase64 text

/-! Concrete sample data used to instantiate the theorems below. -/

/-- A stored proof blob carrying an address seed. -/
def sampleProof : StoredZkLoginProof :=
  { proofPoints := .str "pp", issBase64Details := .str "iss",
    headerBase64 := .str "hdr", addressSeed := some "11" }

/-- A stored proof blob lacking an address seed (legacy shape). -/
def sampleProofNoSeed : StoredZkLoginProof :=
  { proofPoints := .str "pp", issBase64Details := .str "iss",
    headerBase64 := .str "hdr", addressSeed := none }

/-- A first login session for address 0xabc. -/
def sampleSessionA : AccountSession :=
  { address := "0xabc", provider := "twitch", sub := "u1", aud := "clientA",
    maxEpoch := 10, createdAt := 100, salt := "42", randomness := "7",
    jwt := "jwtA", proof := sampleProof, ephemeralPrivateKey := "keyA" }

/-- A second, newer login session for the same address 0xabc. -/
def sampleSessionA2 : AccountSession :=
  { address := "0xabc", provider := "twitch", sub := "u1", aud := "clientA",
    maxEpoch := 12, createdAt := 200, salt := "42", randomness := "9",
    jwt := "jwtA2", proof := sampleProof, ephemeralPrivateKey := "keyA2" }

/-- A session agreeing with `sampleSessionA` on all six public fields while
differing in every sensitive field. -/
def sampleSessionB : AccountSession :=
  { address := "0xabc", provider := "twitch", sub := "u1", aud := "clientA",
    maxEpoch := 10, createdAt := 100, salt := "43", randomness := "8",
    jwt := "jwtB", proof := sampleProofNoSeed, ephemeralPrivateKey := "keyB" }

/-- A prover response carrying the three proof fields but no addressSeed. -/
def proofResponseNoSeed : JsonValue :=
  .obj [("proofPoints", .str "pp"), ("issBase64Details", .str "iss"),
        ("headerBase64", .str "hdr")]

/-- Top-level fields of a complete prover response (seed sent as a number). -/
def proofResponseFields : List (String × JsonValue) :=
  [("proofPoints", .str "pp"), ("issBase64Details", .str "iss"),
   ("headerBase64", .str "hdr"), ("addressSeed", .num 42)]

/-- A single spendable coin worth 0.06 SUI. -/
def sampleCoin : CoinStruct :=
  { coinObjectId := "0xcoin1", version := "5", digest := "dgst1",
    balance := some 60000000 }

/-- A chain snapshot on which `sampleCoin` is the only coin. -/
def sampleFundedSnapshot : ChainSnapshot :=
  { coinsPage := [sampleCoin], totalBalanceField := some 60000000 }

/-- A chain snapshot with no coins and a zero aggregate balance. -/
def sampleEmptySnapshot : ChainSnapshot :=
  { coinsPage := [], totalBalanceField := some 0 }

/-! Theorems. -/

/-- C1: for every salt value s (a nonnegative integer parsed from the salt
service's decimal string), normalizeToField(s) equals s mod FIELD_MODULUS_BN254
when that remainder is nonzero and equals 1 when the remainder is zero, so the
reduced salt is never 0. -/
theorem normalizeToField_never_zero (s : Nat) :
    normalizeToField s =
      (if s % FIELD_MODULUS_BN254 = 0 then 1 else s % FIELD_MODULUS_BN254) ∧
    normalizeToField s ≠ 0 := by
  refine ⟨rfl, ?_⟩
  simp only [normalizeToField]
  split
  · exact one_ne_zero
  · assumption

/-- C8: account sessions agreeing on the six public fields project to
identical AccountPublicData regardless of their sensitive fields; the
projection consists of exactly those six fields, and the storage-layer list
projection is its pointwise map. -/
theorem sessionToPublicData_hides_secrets :
    (∀ s1 s2 : AccountSession,
      s1.address = s2.address → s1.provider = s2.provider → s1.sub = s2.sub →
      s1.aud = s2.aud → s1.createdAt = s2.createdAt → s1.maxEpoch = s2.maxEpoch →
      sessionToPublicData s1 = sessionToPublicData s2) ∧
    (∀ s : AccountSession, sessionToPublicData s =
      { address := s.address, provider := s.provider, sub := s.sub,
        aud := s.aud, maxEpoch := s.maxEpoch, createdAt := s.createdAt }) ∧
    (∀ sessions : List AccountSession,
      sessionsToPublicData sessions = sessions.map sessionToPublicData) := by
  refine ⟨?_, fun _ => rfl, fun _ => rfl⟩
  intro s1 s2 h1 h2 h3 h4 h5 h6
  simp [sessionToPublicData, h1, h2, h3, h4, h5, h6]

/-- Witness for C8: `sampleSessionA` and `sampleSessionB` differ in all five
sensitive fields yet project to the same public data. -/
theorem sessionToPublicData_hides_secrets_witness :
    sessionToPublicData sampleSessionA = sessionToPublicData sampleSessionB :=
  sessionToPublicData_hides_secrets.1 sampleSessionA sampleSessionB
    rfl rfl rfl rfl rfl rfl

/-- C5: for every address with no session in the store, signAndExecute
returns a failure envelope carrying the distinct session-absence message, not
a generic one, and leaves the session store unchanged. -/
theorem signAndExecute_session_absence (sessions : List AccountSession)
    (address : String) (h : ∀ s ∈ sessions, s.address ≠ address)
    (execute : AccountSession → Except String String) :
    (signAndExecute sessions address execute).1.ok = false ∧
    (signAndExecute sessions address execute).1.error =
      some "No active session for this address. Ask the user to log in again." ∧
    (signAndExecute sessions address execute).1.error ≠ some "Unknown error occurred" ∧
    (signAndExecute sessions address execute).2 = sessions := by
  have hfind : sessions.find? (fun item => item.address == address) = none := by
    rw [List.find?_eq_none]
    intro s hs
    simpa using h s hs
  refine ⟨?_, ?_, ?_, ?_⟩ <;> simp [signAndExecute, getSessionOrThrow, hfind]

/-- Witness for C5: an empty store has no session for address 0xnone. -/
theorem signAndExecute_session_absence_witness :
    (signAndExecute [sampleSessionA] "0xnone" (fun _ => .ok "digest")).1.ok = false ∧
    (signAndExecute [sampleSessionA] "0xnone" (fun _ => .ok "digest")).1.error =
      some "No active session for this address. Ask the user to log in again." ∧
    (signAndExecute [sampleSessionA] "0xnone" (fun _ => .ok "digest")).1.error ≠
      some "Unknown error occurred" ∧
    (signAndExecute [sampleSessionA] "0xnone" (fun _ => .ok "digest")).2 =
      [sampleSessionA] := by
  refine signAndExecute_session_absence [sampleSessionA] "0xnone" ?_ (fun _ => .ok "digest")
  intro s hs
  rw [List.mem_singleton.mp hs]
  decide

/-- C9: the transfer builder rejects a missing recipient or non-numeric
amount, rejects a converted amount that is not positive, and otherwise builds
the single-sender transaction splitting exactly the requested mist amount off
the gas coin for the recipient; the conversion is the exact value whenever the
amount converts to mist without fractional loss. -/
theorem buildTransaction_transfer_spec :
    (∀ (sender : String) (amount : Option ℚ) (recipient : Option String),
      amount = none ∨ recipient = none ∨ recipient = some "" →
      buildTransaction sender (.transferSui amount recipient) =
        .error "Transfer SUI requires a recipient and numeric amount.") ∧
    (∀ (sender : String) (q : ℚ) (r : String), r ≠ "" → toMist q ≤ 0 →
      buildTransaction sender (.transferSui (some q) (some r)) =
        .error "Transfer amount must be greater than zero.") ∧
    (∀ (sender : String) (q : ℚ) (r : String), r ≠ "" → 0 < toMist q →
      buildTransaction sender (.transferSui (some q) (some r)) =
        .ok (.transfer sender (toMist q) r)) ∧
    (∀ (q : ℚ) (n : ℤ), q * 1000000000 = (n : ℚ) → toMist q = n) := by
  refine ⟨?_, ?_, ?_, ?_⟩
  · intro sender amount recipient h
    rcases h with rfl | rfl | rfl
    · cases recipient <;> simp [buildTransaction]
    · cases amount <;> simp [buildTransaction]
    · cases amount <;> simp [buildTransaction]
  · intro sender q r hr hm
    simp [buildTransaction, hr, hm]
  · intro sender q r hr hm
    simp [buildTransaction, hr, not_le.mpr hm]
  · intro q n hqn
    rw [toMist, hqn]
    exact Int.floor_intCast n

/-- Witness for C9: transferring 1.5 display units to 0xR splits exactly
1 500 000 000 mist. -/
theorem buildTransaction_transfer_spec_witness :
    buildTransaction "0xS" (.transferSui (some ((3 : ℚ) / 2)) (some "0xR")) =
      .ok (.transfer "0xS" (toMist ((3 : ℚ) / 2)) "0xR") ∧
    toMist ((3 : ℚ) / 2) = 1500000000 := by
  have hm : toMist ((3 : ℚ) / 2) = 1500000000 :=
    buildTransaction_transfer_spec.2.2.2 ((3 : ℚ) / 2) 1500000000 (by norm_num)
  exact ⟨buildTransaction_transfer_spec.2.2.1 "0xS" ((3 : ℚ) / 2) "0xR"
    (by decide) (by rw [hm]; decide), hm⟩

/-- Filtering an address back out of a list it was just filtered away from
yields nothing. -/
lemma filter_bne_filter_beq (l : List AccountSession) (x : String) :
    (l.filter fun t => t.address != x).filter (fun t => t.address == x) = [] := by
  rw [List.filter_filter, List.filter_eq_nil_iff]
  intro a _
  cases h : a.address == x <;> simp [bne, h]

/-- After a login, the sessions at the new session's address are exactly the
new session. -/
lemma loginStoreUpdate_filter_eq (sessions : List AccountSession)
    (s : AccountSession) :
    (loginStoreUpdate sessions s).filter (fun t => t.address == s.address) = [s] := by
  simp [loginStoreUpdate, List.filter_cons, filter_bne_filter_beq]

/-- Filtering first can only shrink the number of sessions at an address. -/
lemma length_filter_filter_le (l : List AccountSession)
    (p : AccountSession → Bool) (a : String) :
    ((l.filter p).filter fun t => t.address == a).length ≤
      (l.filter fun t => t.address == a).length :=
  List.Sublist.length_le (List.Sublist.filter _ (List.filter_sublist l))

/-- Uniqueness invariant of the session store: reachable stores hold at most
one session per address. -/
lemma reachable_store_unique {store : List AccountSession}
    (h : ReachableStore store) (a : String) :
    (store.filter fun t => t.address == a).length ≤ 1 := by
  induction h with
  | empty => simp
  | login sessions s _ ih =>
    by_cases ha : s.address = a
    · rw [← ha, loginStoreUpdate_filter_eq]
      simp
    · have hs : (s.address == a) = false := by simp [ha]
      calc ((loginStoreUpdate sessions s).filter fun t => t.address == a).length
          = (((sessions.filter fun t => t.address != s.address).filter
              fun t => t.address == a)).length := by
            simp [loginStoreUpdate, List.filter_cons, hs]
        _ ≤ (sessions.filter fun t => t.address == a).length :=
            length_filter_filter_le sessions _ a
        _ ≤ 1 := ih
  | logout sessions x _ ih =>
    exact le_trans (length_filter_filter_le sessions _ a) ih

/-- C2: every store reachable through login and logout holds at most one
session per address; a login keeps the new session alone at its address, at
the front, leaving sessions of other addresses untouched; two consecutive
logins for one address leave exactly the second (newer-createdAt) session. -/
theorem sessionStore_one_session_per_address :
    (∀ store, ReachableStore store →
      ∀ a, (store.filter fun t => t.address == a).length ≤ 1) ∧
    (∀ sessions (s : AccountSession), (loginStoreUpdate sessions s).head? = some s) ∧
    (∀ sessions (s : AccountSession),
      (loginStoreUpdate sessions s).filter (fun t => t.address == s.address) = [s]) ∧
    (∀ sessions (s : AccountSession),
      (loginStoreUpdate sessions s).filter (fun t => t.address != s.address) =
        sessions.filter (fun t => t.address != s.address)) ∧
    (∀ sessions (s1 s2 : AccountSession), s1.address = s2.address →
      (loginStoreUpdate (loginStoreUpdate sessions s1) s2).filter
        (fun t => t.address == s2.address) = [s2]) := by
  refine ⟨fun _ h a => reachable_store_unique h a, fun _ _ => rfl,
    loginStoreUpdate_filter_eq, ?_, ?_⟩
  · intro sessions s
    simp [loginStoreUpdate, List.filter_cons, List.filter_filter]
  · intro sessions s1 s2 _
    exact loginStoreUpdate_filter_eq _ s2

/-- Witness for C2: a store reached by one login holds one session at 0xabc,
and logging in twice for 0xabc leaves exactly the second session. -/
theorem sessionStore_one_session_per_address_witness :
    ((loginStoreUpdate [] sampleSessionA).filter
      fun t => t.address == "0xabc").length ≤ 1 ∧
    (loginStoreUpdate (loginStoreUpdate [] sampleSessionA) sampleSessionA2).filter
      (fun t => t.address == sampleSessionA2.address) = [sampleSessionA2] :=
  ⟨sessionStore_one_session_per_address.1 _
      (ReachableStore.login [] sampleSessionA ReachableStore.empty) "0xabc",
   sessionStore_one_session_per_address.2.2.2.2 [] sampleSessionA sampleSessionA2 rfl⟩

/-- A wrapped response `{data: r}` selects the same proof source as `r`
whenever `r` carries the three proof fields. -/
lemma proofSource_data_wrap (fields : List (String × JsonValue))
    (h : hasProofShape (.obj fields) = true) :
    proofSource (.obj [("data", .obj fields)]) = some (.obj fields) := by
  have hTop : hasProofShape (.obj [("data", JsonValue.obj fields)]) = false := rfl
  have hNested : nestedData (.obj [("data", JsonValue.obj fields)]) =
      some (.obj fields) := rfl
  simp [proofSource, hTop, hNested, h]

/-- C7: a data-wrapped proof response is unwrapped to the same result as the
bare response whenever the bare response carries the three required fields,
and a response in which neither level carries all three fields is the hard
error listing the top-level keys present. -/
theorem fetchZkProof_data_unwrap :
    (∀ fields : List (String × JsonValue), hasProofShape (.obj fields) = true →
      fetchZkProof (.obj [("data", .obj fields)]) = fetchZkProof (.obj fields)) ∧
    (∀ fields : List (String × JsonValue), proofSource (.obj fields) = none →
      fetchZkProof (.obj fields) =
        .error ("Invalid proof response: missing fields. Keys present: "
          ++ String.intercalate ", " (fields.map Prod.fst))) := by
  constructor
  · intro fields h
    have hsrc : proofSource (.obj fields) = some (.obj fields) := by
      simp [proofSource, h]
    simp [fetchZkProof, proofSource_data_wrap fields h, hsrc, jsTruthy,
      jsTypeofIsObject]
  · intro fields h
    rw [fetchZkProof, h]
    rfl

/-- Witness for C7: a complete concrete response produces identically under
the data wrapper, and a shapeless response yields the key-listing error. -/
theorem fetchZkProof_data_unwrap_witness :
    fetchZkProof (.obj [("data", .obj proofResponseFields)]) =
      fetchZkProof (.obj proofResponseFields) ∧
    fetchZkProof (.obj [("other", .str "x")]) =
      .error ("Invalid proof response: missing fields. Keys present: "
        ++ String.intercalate ", " ([("other", JsonValue.str "x")].map Prod.fst)) :=
  ⟨fetchZkProof_data_unwrap.1 proofResponseFields rfl,
   fetchZkProof_data_unwrap.2 [("other", .str "x")] rfl⟩

/-- Counterexample to C6 as stated: a response carrying the three required
proof fields but no addressSeed does not succeed — fetchZkProof throws the
missing-addressSeed error instead. -/
theorem fetchZkProof_missing_seed_rejects :
    fetchZkProof proofResponseNoSeed =
      .error ("Invalid proof response: missing addressSeed. Keys present: "
        ++ "proofPoints, issBase64Details, headerBase64") ∧
    ∀ p : StoredZkLoginProof, fetchZkProof proofResponseNoSeed ≠ .ok p := by
  have h0 : fetchZkProof proofResponseNoSeed =
      .error ("Invalid proof response: missing addressSeed. Keys present: "
        ++ "proofPoints, issBase64Details, headerBase64") := rfl
  refine ⟨h0, fun p hp => ?_⟩
  rw [h0] at hp
  exact Except.noConfusion hp

/-- C6 as amended: a present addressSeed (string, number or bigint) is
normalized to a decimal string and returned verbatim in the blob; an absent
(or non-normalizable, or empty) addressSeed is a hard error naming the source
keys, the request failing rather than succeeding; the computation of the seed
from (salt, "sub", sub, aud) exists in the signing path, used exactly when a
stored session's proof lacks a seed. -/
theorem fetchZkProof_addressSeed_behaviour :
    (∀ (fields : List (String × JsonValue)) (t : String),
      hasProofShape (.obj fields) = true →
      decodeAddressSeed (getField (.obj fields) "addressSeed") = some t → t ≠ "" →
      fetchZkProof (.obj fields) = .ok
        { proofPoints := (getField (.obj fields) "proofPoints").getD .null
          issBase64Details := (getField (.obj fields) "issBase64Details").getD .null
          headerBase64 := (getField (.obj fields) "headerBase64").getD .null
          addressSeed := some t }) ∧
    (∀ s : String, decodeAddressSeed (some (.str s)) = some s) ∧
    (∀ n : Int, decodeAddressSeed (some (.num n)) = some (toString n)) ∧
    (∀ n : Int, decodeAddressSeed (some (.bigint n)) = some (toString n)) ∧
    (∀ fields : List (String × JsonValue),
      hasProofShape (.obj fields) = true →
      decodeAddressSeed (getField (.obj fields) "addressSeed") = none →
      fetchZkProof (.obj fields) =
        .error ("Invalid proof response: missing addressSeed. Keys present: "
          ++ String.intercalate ", " (fields.map Prod.fst))) ∧
    (∀ gen (session : AccountSession) (seed : String),
      session.proof.addressSeed = some seed →
      sessionAddressSeed gen session = seed) ∧
    (∀ gen (session : AccountSession),
      session.proof.addressSeed = none →
      sessionAddressSeed gen session =
        toString (gen session.salt "sub" session.sub session.aud)) := by
  refine ⟨?_, fun _ => rfl, fun _ => rfl, fun _ => rfl, ?_, ?_, ?_⟩
  · intro fields t h hseed ht
    have hsrc : proofSource (.obj fields) = some (.obj fields) := by
      simp [proofSource, h]
    simp [fetchZkProof, hsrc, jsTruthy, jsTypeofIsObject,
      extractProofFromSource, hseed, ht]
  · intro fields h hseed
    have hsrc : proofSource (.obj fields) = some (.obj fields) := by
      simp [proofSource, h]
    simp [fetchZkProof, hsrc, jsTruthy, jsTypeofIsObject,
      extractProofFromSource, hseed, objectKeys]
  · intro gen session seed h
    rw [sessionAddressSeed, h]
  · intro gen session h
    rw [sessionAddressSeed, h]

/-- Witness for the amended C6: a numeric addressSeed 42 is returned as the
decimal string "42", and a stored session with a seedless proof falls back to
the computed seed. -/
theorem fetchZkProof_addressSeed_behaviour_witness :
    fetchZkProof (.obj proofResponseFields) = .ok
      { proofPoints := .str "pp", issBase64Details := .str "iss",
        headerBase64 := .str "hdr", addressSeed := some "42" } ∧
    sessionAddressSeed (fun _ _ _ _ => 7) sampleSessionB = "7" := by
  constructor
  · have h := fetchZkProof_addressSeed_behaviour.1 proofResponseFields "42" rfl rfl
      (by decide)
    rw [h]
    rfl
  · exact fetchZkProof_addressSeed_behaviour.2.2.2.2.2.2 (fun _ _ _ _ => 7)
      sampleSessionB rfl

/-- Membership through the insertion step of the coin sort. -/
lemma mem_insertCoinByBalanceDesc {a c : CoinStruct} {l : List CoinStruct} :
    a ∈ insertCoinByBalanceDesc c l ↔ a = c ∨ a ∈ l := by
  induction l with
  | nil => simp [insertCoinByBalanceDesc]
  | cons other rest ih =>
    rw [insertCoinByBalanceDesc]
    split
    · simp
    · simp [ih]
      tauto

/-- Membership is preserved by the coin sort. -/
lemma mem_sortCoinsByBalanceDesc {a : CoinStruct} {l : List CoinStruct} :
    a ∈ sortCoinsByBalanceDesc l ↔ a ∈ l := by
  induction l with
  | nil => simp [sortCoinsByBalanceDesc]
  | cons coin rest ih =>
    rw [sortCoinsByBalanceDesc]
    rw [mem_insertCoinByBalanceDesc]
    simp [ih]

/-- Inserting into a descending-balance list keeps it descending. -/
lemma pairwise_insertCoinByBalanceDesc {c : CoinStruct} {l : List CoinStruct}
    (h : l.Pairwise fun x y => coinBalanceValue y ≤ coinBalanceValue x) :
    (insertCoinByBalanceDesc c l).Pairwise
      fun x y => coinBalanceValue y ≤ coinBalanceValue x := by
  induction l with
  | nil => simp [insertCoinByBalanceDesc]
  | cons other rest ih =>
    rw [List.pairwise_cons] at h
    rw [insertCoinByBalanceDesc]
    split
    · rename_i hle
      rw [List.pairwise_cons]
      refine ⟨?_, List.pairwise_cons.mpr h⟩
      intro y hy
      rcases List.mem_cons.mp hy with rfl | hy'
      · exact hle
      · exact le_trans (h.1 y hy') hle
    · rename_i hgt
      rw [List.pairwise_cons]
      refine ⟨?_, ih h.2⟩
      intro y hy
      rcases mem_insertCoinByBalanceDesc.mp hy with rfl | hy'
      · exact le_of_not_le hgt
      · exact h.1 y hy'

/-- The coin sort produces a descending-balance list. -/
lemma pairwise_sortCoinsByBalanceDesc (l : List CoinStruct) :
    (sortCoinsByBalanceDesc l).Pairwise
      fun x y => coinBalanceValue y ≤ coinBalanceValue x := by
  induction l with
  | nil => simp [sortCoinsByBalanceDesc]
  | cons coin rest ih =>
    exact pairwise_insertCoinByBalanceDesc ih

/-- C3: the provisioner computes minimumRequired as
max(transferAmountMist, 0) + 50,000,000 mist, enumerates the coins with
zero-balance entries dropped and the rest in descending balance order, and,
whenever the aggregate balance covers minimumRequired and a spendable coin
exists, returns the first (largest) at most 32 coin handles without touching
the faucet. -/
theorem ensureSui_sufficient_balance (payload : SerializedTransactionRequest)
    (snap : ChainSnapshot) (faucetOk : Bool) (polls : Nat → ChainSnapshot)
    (finalSnap : ChainSnapshot)
    (hbal : minimumRequiredMist payload ≤ (collectSpendableCoins snap).totalBalance)
    (hcoins : (collectSpendableCoins snap).coins ≠ []) :
    (ensureSuiForTransaction payload snap faucetOk polls finalSnap).result =
      .ok (coinsToObjectRefs (collectSpendableCoins snap).coins) ∧
    (ensureSuiForTransaction payload snap faucetOk polls finalSnap).faucetCalls = 0 ∧
    minimumRequiredMist payload = max (transferAmountMist payload) 0 + GAS_BUFFER_MIST ∧
    (collectSpendableCoins snap).coins =
      sortCoinsByBalanceDesc (snap.coinsPage.filter coinHasPositiveBalance) ∧
    (collectSpendableCoins snap).coins.Pairwise
      (fun x y => coinBalanceValue y ≤ coinBalanceValue x) ∧
    (∀ coin ∈ (collectSpendableCoins snap).coins, coinHasPositiveBalance coin = true) ∧
    coinsToObjectRefs (collectSpendableCoins snap).coins =
      ((collectSpendableCoins snap).coins.take 32).map
        (fun coin => { objectId := coin.coinObjectId, digest := coin.digest,
                       version := coin.version }) ∧
    (coinsToObjectRefs (collectSpendableCoins snap).coins).length ≤ 32 := by
  refine ⟨?_, ?_, ?_, rfl, ?_, ?_, rfl, ?_⟩
  · simp [ensureSuiForTransaction, hbal, hcoins]
  · simp [ensureSuiForTransaction, hbal, hcoins]
  · rw [minimumRequiredMist]
    rcases le_or_lt (transferAmountMist payload) 0 with h | h
    · rw [if_neg (not_lt.mpr h), max_eq_right h]
    · rw [if_pos h, max_eq_left (le_of_lt h)]
  · exact pairwise_sortCoinsByBalanceDesc _
  · intro coin hmem
    have : coin ∈ snap.coinsPage.filter coinHasPositiveBalance :=
      mem_sortCoinsByBalanceDesc.mp hmem
    exact List.of_mem_filter this
  · rw [coinsToObjectRefs]
    rw [List.length_map, List.length_take]
    exact min_le_left _ _

/-- Witness for C3: one 0.06-SUI coin covers the 0.05-SUI buffer for a
payload with no transfer amount, so its handle is returned with no faucet
call. -/
theorem ensureSui_sufficient_balance_witness :
    (ensureSuiForTransaction (.transferSui none none) sampleFundedSnapshot true
      (fun _ => sampleEmptySnapshot) sampleEmptySnapshot).result =
      .ok (coinsToObjectRefs (collectSpendableCoins sampleFundedSnapshot).coins) ∧
    (ensureSuiForTransaction (.transferSui none none) sampleFundedSnapshot true
      (fun _ => sampleEmptySnapshot) sampleEmptySnapshot).faucetCalls = 0 :=
  ⟨(ensureSui_sufficient_balance (.transferSui none none) sampleFundedSnapshot true
      (fun _ => sampleEmptySnapshot) sampleEmptySnapshot (by decide) (by decide)).1,
   (ensureSui_sufficient_balance (.transferSui none none) sampleFundedSnapshot true
      (fun _ => sampleEmptySnapshot) sampleEmptySnapshot (by decide) (by decide)).2.1⟩

/-- Behaviour of the faucet poll loop: the trace of delays slept is a prefix
of the configured delays; every poll it moved past saw no spendable coin; and
an early stop happens exactly on a poll that saw one. -/
lemma pollLoop_spec (polls : Nat → ChainSnapshot) :
    ∀ (delays : List Nat) (i : Nat),
      pollLoop polls i delays = delays.take (pollLoop polls i delays).length ∧
      (pollLoop polls i delays).length ≤ delays.length ∧
      (∀ k, k + 1 < (pollLoop polls i delays).length →
        (collectSpendableCoins (polls (i + k))).coins = []) ∧
      ((pollLoop polls i delays).length < delays.length →
        ∃ j, (pollLoop polls i delays).length = j + 1 ∧
          (collectSpendableCoins (polls (i + j))).coins ≠ []) := by
  intro delays
  induction delays with
  | nil => intro i; simp [pollLoop]
  | cons d ds ih =>
    intro i
    by_cases hE : (collectSpendableCoins (polls i)).coins.isEmpty = true
    · obtain ⟨ih1, ih2, ih3, ih4⟩ := ih (i + 1)
      have hP : pollLoop polls i (d :: ds) = d :: pollLoop polls (i + 1) ds := by
        simp only [pollLoop, if_pos hE]
      rw [hP]
      refine ⟨?_, ?_, ?_, ?_⟩
      · simp only [List.length_cons, List.take_succ_cons]
        rw [← ih1]
      · simpa using ih2
      · intro k hk
        cases k with
        | zero =>
          simpa using List.isEmpty_iff.mp hE
        | succ k' =>
          have hlt : k' + 1 < (pollLoop polls (i + 1) ds).length := by
            simpa using hk
          have := ih3 k' hlt
          rw [show i + (k' + 1) = (i + 1) + k' by omega]
          exact this
      · intro hlt
        have hlt' : (pollLoop polls (i + 1) ds).length < ds.length := by
          simpa using hlt
        obtain ⟨j, hj1, hj2⟩ := ih4 hlt'
        refine ⟨j + 1, by simp [hj1], ?_⟩
        rw [show i + (j + 1) = (i + 1) + j by omega]
        exact hj2
    · have hP : pollLoop polls i (d :: ds) = [d] := by
        simp only [pollLoop, if_neg hE]
      rw [hP]
      refine ⟨by simp, by simp, ?_, ?_⟩
      · intro k hk
        simp at hk
      · intro _
        refine ⟨0, by simp, ?_⟩
        rw [Nat.add_zero]
        intro hnil
        exact hE (by simp [hnil])

/-- Shape of the provisioner when the initial balance is short: faucet once,
then the poll loop, then a final re-check. -/
lemma ensureSui_short_eq (payload : SerializedTransactionRequest)
    (snap : ChainSnapshot) (faucetOk : Bool) (polls : Nat → ChainSnapshot)
    (finalSnap : ChainSnapshot)
    (hshort : (collectSpendableCoins snap).totalBalance < minimumRequiredMist payload) :
    ensureSuiForTransaction payload snap faucetOk polls finalSnap =
      match requestFaucetAndWait faucetOk polls with
      | .error msg => { result := .error msg, faucetCalls := 1, pollDelays := [] }
      | .ok delays =>
        if minimumRequiredMist payload ≤ (collectSpendableCoins finalSnap).totalBalance ∧
            (collectSpendableCoins finalSnap).coins ≠ [] then
          { result := .ok (coinsToObjectRefs (collectSpendableCoins finalSnap).coins),
            faucetCalls := 1, pollDelays := delays }
        else
          { result := .error (if 0 < transferAmountMist payload ∧
                (collectSpendableCoins finalSnap).totalBalance < transferAmountMist payload then
              "보내려는 SUI 양이 아직 부족합니다. 지갑에 SUI를 더 충전한 뒤 다시 시도하세요."
            else
              "테스트넷 faucet에서 아직 SUI가 도착하지 않았습니다. 잠시 기다린 뒤 다시 시도해주세요.")
            faucetCalls := 1, pollDelays := delays } := by
  have hno : ¬(minimumRequiredMist payload ≤ (collectSpendableCoins snap).totalBalance ∧
      (collectSpendableCoins snap).coins ≠ []) := by
    rintro ⟨hle, -⟩
    exact absurd hshort (not_lt.mpr hle)
  rw [ensureSuiForTransaction]
  simp only [if_neg hno, IS_TESTNET]
  rfl

/-- C4: with the aggregate balance below minimumRequired on the (always
faucet-enabled) test network, the provisioner calls the faucet exactly once,
polls at most five times with the prescribed prefix of delays
700/1500/2500/4000/6000 ms, stops polling as soon as a spendable coin is
seen, fails immediately with no polling when the faucet request itself fails,
and otherwise fails with the message distinguishing a short transfer amount
from short fees when funds are still insufficient. -/
theorem ensureSui_faucet_bounded (payload : SerializedTransactionRequest)
    (snap : ChainSnapshot) (faucetOk : Bool) (polls : Nat → ChainSnapshot)
    (finalSnap : ChainSnapshot) (E : ProvisionOutcome)
    (hE : E = ensureSuiForTransaction payload snap faucetOk polls finalSnap)
    (hshort : (collectSpendableCoins snap).totalBalance < minimumRequiredMist payload) :
    FAUCET_RETRY_DELAYS_MS = [700, 1500, 2500, 4000, 6000] ∧
    E.faucetCalls = 1 ∧
    E.pollDelays.length ≤ 5 ∧
    E.pollDelays = FAUCET_RETRY_DELAYS_MS.take E.pollDelays.length ∧
    (∀ k, k + 1 < E.pollDelays.length →
      (collectSpendableCoins (polls k)).coins = []) ∧
    (faucetOk = false →
      E.result = .error "테스트넷 faucet 요청이 실패했습니다. 잠시 후 다시 시도하거나 수동으로 가스를 충전하세요." ∧
      E.pollDelays = []) ∧
    (faucetOk = true → E.pollDelays.length < 5 →
      ∃ j, E.pollDelays.length = j + 1 ∧
        (collectSpendableCoins (polls j)).coins ≠ []) ∧
    (faucetOk = true →
      minimumRequiredMist payload ≤ (collectSpendableCoins finalSnap).totalBalance →
      (collectSpendableCoins finalSnap).coins ≠ [] →
      E.result = .ok (coinsToObjectRefs (collectSpendableCoins finalSnap).coins)) ∧
    (faucetOk = true →
      ¬(minimumRequiredMist payload ≤ (collectSpendableCoins finalSnap).totalBalance ∧
        (collectSpendableCoins finalSnap).coins ≠ []) →
      E.result = .error (if 0 < transferAmountMist payload ∧
          (collectSpendableCoins finalSnap).totalBalance < transferAmountMist payload then
        "보내려는 SUI 양이 아직 부족합니다. 지갑에 SUI를 더 충전한 뒤 다시 시도하세요."
      else
        "테스트넷 faucet에서 아직 SUI가 도착하지 않았습니다. 잠시 기다린 뒤 다시 시도해주세요.")) := by
  rw [ensureSui_short_eq payload snap faucetOk polls finalSnap hshort] at hE
  cases faucetOk with
  | false =>
    rw [requestFaucetAndWait] at hE
    simp only [Bool.false_eq_true, if_false] at hE
    subst hE
    refine ⟨rfl, rfl, by simp, rfl, ?_, fun _ => ⟨rfl, rfl⟩, ?_, ?_, ?_⟩
    · intro k hk
      simp at hk
    · intro h; exact absurd h (by simp)
    · intro h; exact absurd h (by simp)
    · intro h; exact absurd h (by simp)
  | true =>
    rw [requestFaucetAndWait] at hE
    simp only [if_true] at hE
    obtain ⟨hp1, hp2, hp3, hp4⟩ := pollLoop_spec polls FAUCET_RETRY_DELAYS_MS 0
    by_cases hc : minimumRequiredMist payload ≤ (collectSpendableCoins finalSnap).totalBalance ∧
        (collectSpendableCoins finalSnap).coins ≠ []
    · rw [if_pos hc] at hE
      subst hE
      refine ⟨rfl, rfl, ?_, ?_, ?_, ?_, ?_, fun _ _ _ => rfl, ?_⟩
      · simpa [FAUCET_RETRY_DELAYS_MS] using hp2
      · exact hp1
      · intro k hk
        simpa using hp3 k hk
      · intro h; exact absurd h (by simp)
      · intro _ hlt
        obtain ⟨j, hj1, hj2⟩ := hp4 (by simpa [FAUCET_RETRY_DELAYS_MS] using hlt)
        exact ⟨j, hj1, by simpa using hj2⟩
      · intro _ hnc
        exact absurd hc hnc
    · rw [if_neg hc] at hE
      subst hE
      refine ⟨rfl, rfl, ?_, ?_, ?_, ?_, ?_, ?_, fun _ _ => rfl⟩
      · simpa [FAUCET_RETRY_DELAYS_MS] using hp2
      · exact hp1
      · intro k hk
        simpa using hp3 k hk
      · intro h; exact absurd h (by simp)
      · intro _ hlt
        obtain ⟨j, hj1, hj2⟩ := hp4 (by simpa [FAUCET_RETRY_DELAYS_MS] using hlt)
        exact ⟨j, hj1, by simpa using hj2⟩
      · intro _ hle hne
        exact absurd ⟨hle, hne⟩ hc

/-- Witness for C4: an empty account below the buffer triggers one faucet
call; the first poll already sees the arrived coin, so exactly one delay
(700 ms) is slept and the final re-check returns the coin handle. -/
theorem ensureSui_faucet_bounded_witness :
    (ensureSuiForTransaction (.transferSui none none) sampleEmptySnapshot true
      (fun _ => sampleFundedSnapshot) sampleFundedSnapshot).faucetCalls = 1 ∧
    (ensureSuiForTransaction (.transferSui none none) sampleEmptySnapshot true
      (fun _ => sampleFundedSnapshot) sampleFundedSnapshot).result =
      .ok (coinsToObjectRefs (collectSpendableCoins sampleFundedSnapshot).coins) := by
  have h := ensureSui_faucet_bounded (.transferSui none none) sampleEmptySnapshot true
    (fun _ => sampleFundedSnapshot) sampleFundedSnapshot _ rfl (by decide)
  exact ⟨h.2.1, h.2.2.2.2.2.2.2.1 rfl (by decide) (by decide)⟩

/-- The alphabet inverts its own indexing on six-bit values. -/
lemma charToSextet_sextetToChar : ∀ n, n < 64 → charToSextet (sextetToChar n) = n := by
  decide

/-- No six-bit value encodes to the padding character. -/
lemma sextetToChar_ne_pad : ∀ n, n < 64 → sextetToChar n ≠ '=' := by
  decide

/-- Decoding inverts encoding on byte sequences. -/
lemma decode_encode_base64 : ∀ bytes : List Nat, (∀ b ∈ bytes, b < 256) →
    decodeBase64 (encodeBase64 bytes) = bytes := by
  intro bytes
  induction bytes using encodeBase64.induct with
  | case1 => intro _; rfl
  | case2 b0 =>
    intro h
    have h0 : b0 < 256 := h b0 (by simp)
    have e1 : charToSextet (sextetToChar (b0 / 4)) = b0 / 4 :=
      charToSextet_sextetToChar _ (by omega)
    have e2 : charToSextet (sextetToChar (b0 % 4 * 16)) = b0 % 4 * 16 :=
      charToSextet_sextetToChar _ (by omega)
    simp [encodeBase64, decodeBase64, e1, e2]
    omega
  | case3 b0 b1 =>
    intro h
    have h0 : b0 < 256 := h b0 (by simp)
    have h1 : b1 < 256 := h b1 (by simp)
    have e1 : charToSextet (sextetToChar (b0 / 4)) = b0 / 4 :=
      charToSextet_sextetToChar _ (by omega)
    have e2 : charToSextet (sextetToChar (b0 % 4 * 16 + b1 / 16)) =
        b0 % 4 * 16 + b1 / 16 :=
      charToSextet_sextetToChar _ (by omega)
    have e3 : charToSextet (sextetToChar (b1 % 16 * 4)) = b1 % 16 * 4 :=
      charToSextet_sextetToChar _ (by omega)
    have n3 : sextetToChar (b1 % 16 * 4) ≠ '=' := sextetToChar_ne_pad _ (by omega)
    simp [encodeBase64, decodeBase64, e1, e2, e3, n3]
    omega
  | case4 b0 b1 b2 rest ih =>
    intro h
    have h0 : b0 < 256 := h b0 (by simp)
    have h1 : b1 < 256 := h b1 (by simp)
    have h2 : b2 < 256 := h b2 (by simp)
    have hrest : ∀ b ∈ rest, b < 256 := fun b hb => h b (by simp [hb])
    have e1 : charToSextet (sextetToChar (b0 / 4)) = b0 / 4 :=
      charToSextet_sextetToChar _ (by omega)
    have e2 : charToSextet (sextetToChar (b0 % 4 * 16 + b1 / 16)) =
        b0 % 4 * 16 + b1 / 16 :=
      charToSextet_sextetToChar _ (by omega)
    have e3 : charToSextet (sextetToChar (b1 % 16 * 4 + b2 / 64)) =
        b1 % 16 * 4 + b2 / 64 :=
      charToSextet_sextetToChar _ (by omega)
    have e4 : charToSextet (sextetToChar (b2 % 64)) = b2 % 64 :=
      charToSextet_sextetToChar _ (by omega)
    have n3 : sextetToChar (b1 % 16 * 4 + b2 / 64) ≠ '=' :=
      sextetToChar_ne_pad _ (by omega)
    have n4 : sextetToChar (b2 % 64) ≠ '=' := sextetToChar_ne_pad _ (by omega)
    simp [encodeBase64, decodeBase64, e1, e2, e3, e4, n3, n4, ih hrest]
    refine ⟨by omega, by omega, by omega⟩

/-- C10: for every byte array, decoding the base64 encoding returns a byte
array of the same length whose every element equals the corresponding input
byte — keys and message bytes survive the persistence format unchanged. -/
theorem base64_persistence_roundtrip (bytes : List Nat)
    (h : ∀ b ∈ bytes, b < 256) :
    base64ToUint8 (uint8ToBase64 bytes) = bytes ∧
    (base64ToUint8 (uint8ToBase64 bytes)).length = bytes.length := by
  have h1 := decode_encode_base64 bytes h
  exact ⟨h1, by rw [show base64ToUint8 (uint8ToBase64 bytes) = bytes from h1]⟩

/-- Witness for C10: the bytes 0, 77, 255 survive the round trip. -/
theorem base64_persistence_roundtrip_witness :
    base64ToUint8 (uint8ToBase64 [0, 77, 255]) = [0, 77, 255] :=
  (base64_persistence_roundtrip [0, 77, 255] (by decide)).1

end ZkWallet
